import Mathlib

/-!
Verification of the ESC/POS document builders and dispatch adapter of
`src/components/utils/androidPrint.js`.

The JavaScript module is shallowly embedded:
* JavaScript runtime values that flow into arithmetic are modelled by `JVal`
  (undefined, NaN, finite number, string).  Finite numbers are modelled by
  rationals; the claims under verification only exercise values with finite
  decimal expansions, where rational and IEEE-754 arithmetic agree.
* `Number.prototype.toFixed` is modelled by `jsToFixed`; calling it on a
  non-number (undefined or a string) is a thrown `TypeError`, modelled by
  `Except.error`, exactly as in the source.
* The ambient clock read by `getDateTime` (`new Date()` plus locale
  formatting) is modelled by an explicit environment `Env` carrying the two
  formatted components; the builders receive it as an extra argument because
  the source reads it implicitly.
* `window.AndroidPrint.printBill` and `console.log` are modelled as emitted
  actions (`PAction`); `setTimeout(f, d)` is modelled as a `ScheduledTask`
  holding the delay and the actions the callback would emit.
-/

namespace AndroidPrint

/-- ESC byte (0x1B), as in the source. -/
def ESC : String := "\x1B"

/-- GS byte (0x1D), as in the source. -/
def GS : String := "\x1D"

namespace CMD

/-- Reset / initialize printer: ESC '@'. -/
def INIT : String := ESC ++ "@"

/-- Left align. -/
def ALIGN_LEFT : String := ESC ++ "a\x00"

/-- Center align. -/
def ALIGN_CENTER : String := ESC ++ "a\x01"

/-- Right align. -/
def ALIGN_RIGHT : String := ESC ++ "a\x02"

/-- Bold on. -/
def BOLD_ON : String := ESC ++ "E\x01"

/-- Bold off. -/
def BOLD_OFF : String := ESC ++ "E\x00"

/-- Double height text. -/
def DOUBLE_HEIGHT : String := ESC ++ "!\x10"

/-- Bold + double width + double height. -/
def DOUBLE_BOTH : String := ESC ++ "!\x38"

/-- Normal size text. -/
def NORMAL_TEXT : String := ESC ++ "!\x00"

/-- Full paper cut: GS 'V' 0x41 0x00. -/
def CUT : String := GS ++ "V\x41\x00"

/-- Feed 3 lines before cut. -/
def FEED3 : String := "\n\n\n"

end CMD

/-- Coffee category id constant from the source. -/
def COFFEE_CATEGORY_ID : String := "6868ca5dc29c8ed4d3c98dd8"

/-- JavaScript values that reach the numeric fields of an order.  Finite
numbers are rationals (see module comment). -/
inductive JVal where
  | undef
  | nan
  | num (q : ℚ)
  | str (s : String)
deriving DecidableEq

/-- Digit character for a value below ten. -/
def natDigitChar (n : ℕ) : Char := Char.ofNat (48 + n)

/-- Decimal digits of a natural number, most significant first (fuel-based
recursion on division by ten). -/
def natStrAux : ℕ → ℕ → List Char → List Char
  | 0, _, acc => acc
  | fuel + 1, n, acc =>
    if n < 10 then natDigitChar n :: acc
    else natStrAux fuel (n / 10) (natDigitChar (n % 10) :: acc)

/-- Decimal string of a natural number. -/
def natStr (n : ℕ) : String := String.mk (natStrAux (n + 1) n [])

/-- Exactly `d` decimal digits of `n` modulo `10 ^ d`, most significant
first (zero padded). -/
def fracDigits (n : ℕ) : ℕ → List Char
  | 0 => []
  | d + 1 => fracDigits (n / 10) d ++ [natDigitChar (n % 10)]

/-- Digits of the fractional part `n / den` (with `n < den`), up to the fuel
bound; terminates early when the expansion ends.  JavaScript prints the
shortest round-trip decimal of a double; on values with short finite
expansions, the ones the claims exercise, the two agree. -/
def fracPartDigits : ℕ → ℕ → ℕ → List Char
  | 0, _, _ => []
  | fuel + 1, n, den =>
    if n = 0 then []
    else natDigitChar (n * 10 / den) :: fracPartDigits fuel (n * 10 % den) den

/-- `String(x)` for a finite number. -/
def jsNumToString (q : ℚ) : String :=
  let sign := if q < 0 then "-" else ""
  let n := q.num.natAbs
  let d := q.den
  sign ++ natStr (n / d) ++
    (if n % d = 0 then "" else "." ++ String.mk (fracPartDigits 20 (n % d) d))

/-- Value of a run of decimal digit characters. -/
def digitsToNat (l : List Char) : ℕ := l.foldl (fun a c => 10 * a + (c.toNat - 48)) 0

/-- Whitespace stripped by `ToNumber` before parsing. -/
def jsWhitespace (c : Char) : Bool := c = ' ' || c = '\t' || c = '\n' || c = '\r'

/-- Leading and trailing whitespace stripped. -/
def jsTrim (s : String) : List Char :=
  ((s.data.dropWhile jsWhitespace).reverse.dropWhile jsWhitespace).reverse

/-- `ToNumber` on a string, restricted to the plain decimal fragment
(optional sign, digits, optional fraction).  The source never feeds the
exponent / hex / `Infinity` forms through this path.  `none` models NaN. -/
def parseJsNumber (s : String) : Option ℚ :=
  let t := jsTrim s
  if t.isEmpty then some 0
  else
    let sgn : ℚ := match t with | '-' :: _ => -1 | _ => 1
    let rest : List Char := match t with | '-' :: r => r | '+' :: r => r | r => r
    let ip := rest.takeWhile Char.isDigit
    let fp := rest.dropWhile Char.isDigit
    match fp with
    | [] => if ip.isEmpty then none else some (sgn * digitsToNat ip)
    | '.' :: fr =>
      if fr.all Char.isDigit && !(ip.isEmpty && fr.isEmpty) then
        some (sgn * ((digitsToNat ip : ℚ) + (digitsToNat fr : ℚ) / (10 : ℚ) ^ fr.length))
      else none
    | _ => none

/-- `ToNumber` on a JavaScript value; `none` models NaN. -/
def jsToNumber : JVal → Option ℚ
  | .undef => none
  | .nan => none
  | .num q => some q
  | .str s => parseJsNumber s

/-- JavaScript `*` (after `ToNumber` coercion; NaN propagates). -/
def jsMul (a b : JVal) : JVal :=
  match jsToNumber a, jsToNumber b with
  | some x, some y => .num (x * y)
  | _, _ => .nan

/-- JavaScript `/` (after `ToNumber` coercion; NaN propagates).  The module
only divides by the literal 2, so the division-by-zero branch (Infinity in
JavaScript) is unreachable here. -/
def jsDiv (a b : JVal) : JVal :=
  match jsToNumber a, jsToNumber b with
  | some x, some y => .num (x / y)
  | _, _ => .nan

/-- `String(x)` coercion of a JavaScript value. -/
def jsString : JVal → String
  | .undef => "undefined"
  | .nan => "NaN"
  | .num q => jsNumToString q
  | .str s => s

/-- `floor(x + 1/2)` for a non-negative rational, i.e. round half away from
zero on the magnitude, matching the tie rule of `toFixed`. -/
def ratHalfUp (x : ℚ) : ℕ := ((2 * x.num + (x.den : ℤ)) / (2 * (x.den : ℤ))).toNat

/-- `x.toFixed(d)` for a finite number: round the magnitude to `d` decimal
digits (ties away from zero), then print sign, integer part and, when
`d > 0`, a point followed by exactly `d` digits. -/
def ratToFixed (q : ℚ) (d : ℕ) : String :=
  let sign := if q < 0 then "-" else ""
  let m : ℕ := ratHalfUp (|q| * (10 : ℚ) ^ d)
  if d = 0 then sign ++ natStr m
  else sign ++ natStr (m / 10 ^ d) ++ ("." ++ String.mk (fracDigits (m % 10 ^ d) d))

/-- `v.toFixed(d)`.  On undefined or a string this is a thrown `TypeError`
(member access on undefined / missing method), as in the source; on NaN it
returns the string "NaN". -/
def jsToFixed : JVal → ℕ → Except String String
  | .undef, _ => .error "TypeError: Cannot read properties of undefined (reading toFixed)"
  | .str _, _ => .error "TypeError: toFixed is not a function"
  | .nan, _ => .ok "NaN"
  | .num q, d => .ok (ratToFixed q d)

/-- JavaScript truthiness of a possibly-missing string (undefined and the
empty string are falsy). -/
def truthyStr : Option String → Bool
  | none => false
  | some s => !s.isEmpty

/-- JavaScript `a || b` on a possibly-missing string: `b` when `a` is
undefined or falsy (in particular when `a` is the empty string). -/
def jsOr (a : Option String) (b : String) : String :=
  match a with
  | some s => if s.isEmpty then b else s
  | none => b

/-- A customization entry: either a plain string or an object with an
optional `name` field (the source accepts both, via `c.name || c`). -/
inductive Customization where
  | str (s : String)
  | obj (name : Option String)
deriving DecidableEq

/-- The display text the source interpolates: `c.name || c`.  A plain
string has no `name` field and falls back to itself; an object without a
truthy `name` stringifies to "[object Object]". -/
def custDisplay : Customization → String
  | .str s => s
  | .obj (some n) => if n.isEmpty then "[object Object]" else n
  | .obj none => "[object Object]"

/-- Indented customization lines (emitted only when the collection exists
and is non-empty, mirroring `c && c.length > 0`). -/
def custLines (indentStr : String) (oc : Option (List Customization)) : String :=
  match oc with
  | some cs =>
    if 0 < cs.length then String.join (cs.map (fun c => indentStr ++ custDisplay c ++ "\n"))
    else ""
  | none => ""

/-- A line item of `orderDetails.items`. -/
structure Item where
  itemName : String
  price : JVal
  quantity : JVal
  categoryId : String
  selectedCustomizations : Option (List Customization)
deriving DecidableEq

/-- The `orderDetails` record, with the fields the module reads. -/
structure OrderDetails where
  billType : Option String
  kiosk : Option String
  subtotal : JVal
  tax : JVal
  total : JVal
  items : Option (List Item)
deriving DecidableEq

/-- The ambient clock state: the two locale-formatted components that
`getDateTime` reads from `new Date()`. -/
structure Env where
  nowDate : String
  nowTime : String
deriving DecidableEq

/-- `getDateTime()`: formats the current date/time as `date`, two spaces,
`time`. -/
def getDateTime (env : Env) : String := env.nowDate ++ "  " ++ env.nowTime

/-- Left-aligned fixed-width padding; truncates with `substring(0, len)`
when the string is already at least `len` long. -/
def padEnd (str : String) (len : ℕ) : String :=
  if len ≤ str.length then String.mk (str.data.take len)
  else str ++ String.mk (List.replicate (len - str.length) ' ')

/-- Right-aligned fixed-width padding; truncates like `padEnd`. -/
def padStart (str : String) (len : ℕ) : String :=
  if len ≤ str.length then String.mk (str.data.take len)
  else String.mk (List.replicate (len - str.length) ' ') ++ str

/-- Two-column row: left text, padding (one single space when the combined
length leaves no positive padding), right text, newline. -/
def twoCol (left right : String) (totalWidth : ℕ := 40) : String :=
  let padding : ℤ := (totalWidth : ℤ) - left.length - right.length
  left ++ (if 0 < padding then String.mk (List.replicate padding.toNat ' ') else " ") ++
    right ++ "\n"

/-- Center a string within a fixed width. -/
def center (str : String) (width : ℕ := 40) : String :=
  if width ≤ str.length then str ++ "\n"
  else String.mk (List.replicate ((width - str.length) / 2) ' ') ++ str ++ "\n"

/-- `s.slice(start)` on a string (non-negative index). -/
def strSliceFrom (s : String) (start : ℕ) : String := String.mk (s.data.drop start)

/-- `s.slice(start, stop)` on a string (non-negative indexes). -/
def strSlice (s : String) (start stop : ℕ) : String :=
  String.mk ((s.data.take stop).drop start)

/-- The non-coffee (food) line items: `items.filter(i => i.categoryId !==
COFFEE_CATEGORY_ID)`, with a missing collection read as `[]`. -/
def foodItemsOf (od : OrderDetails) : List Item :=
  (od.items.getD []).filter (fun item => item.categoryId != COFFEE_CATEGORY_ID)

/-- The coffee line items: `items.filter(i => i.categoryId ===
COFFEE_CATEGORY_ID)`, with a missing collection read as `[]`. -/
def coffeeItemsOf (od : OrderDetails) : List Item :=
  (od.items.getD []).filter (fun item => item.categoryId == COFFEE_CATEGORY_ID)

/-- The 40-dash separator line. -/
def dashLine : String := "----------------------------------------\n"

/-- Bill header block (business name, tagline, branch, address). -/
def billHeaderBlock : String :=
  CMD.ALIGN_CENTER ++ CMD.DOUBLE_BOTH ++ "KTR\n" ++ CMD.NORMAL_TEXT ++
  "Karnataka Tiffin Room\n" ++ "Bringing the flavors of Bengaluru\n" ++ "-\n" ++
  "KTR-Versova\n" ++ CMD.NORMAL_TEXT ++ "Shop 202, JP Rd, Aram Nagar Pt 2,\n" ++
  "Versova, Andheri West, Mumbai 400061\n" ++ dashLine

/-- Bill KOT-code block. -/
def billKotBlock (kot_code : String) : String :=
  CMD.ALIGN_CENTER ++ CMD.BOLD_ON ++ ("KOT: " ++ kot_code ++ "\n") ++ CMD.BOLD_OFF ++ dashLine

/-- Bill metadata block (bill number, optional KDS id, date, type, kiosk). -/
def billInfoBlock (orderId : String) (KDSInvoiceId : Option String)
    (dt typeStr kioskStr : String) : String :=
  CMD.ALIGN_LEFT ++ ("BILL NO : " ++ orderId ++ "\n") ++
  (if truthyStr KDSInvoiceId then "KDS ID  : " ++ KDSInvoiceId.getD "" ++ "\n" else "") ++
  ("DATE    : " ++ dt ++ "\n") ++ ("TYPE    : " ++ typeStr ++ "\n") ++
  ("KIOSK   : " ++ kioskStr ++ "\n") ++ dashLine

/-- Bill items column-header block (widths 22 / 4 / 14). -/
def billItemsHeader : String :=
  CMD.BOLD_ON ++ (padEnd "DESCRIPTION" 22 ++ padEnd "QTY" 4 ++ padStart "AMOUNT" 14 ++ "\n") ++
  CMD.BOLD_OFF ++ dashLine

/-- One bill item row: name 22, quantity 4, `Rs` amount (price times
quantity, 2 decimals) right-aligned to 14, then indented customizations.
`toFixed` on the product can only be reached with a number or NaN, so this
never actually errors, but the computation is routed through `jsToFixed`
exactly as the source routes it through `Number.prototype.toFixed`. -/
def renderBillItem (item : Item) : Except String String :=
  match jsToFixed (jsMul item.price item.quantity) 2 with
  | .error e => .error e
  | .ok itemTotal =>
    .ok (padEnd item.itemName 22 ++ padEnd (jsString item.quantity) 4 ++
      (padStart ("Rs " ++ itemTotal) 14 ++ "\n") ++
      custLines "  + " item.selectedCustomizations)

/-- The bill item rows in input order (the `forEach` loop). -/
def renderBillItems : List Item → Except String String
  | [] => .ok ""
  | item :: rest =>
    match renderBillItem item with
    | .error e => .error e
    | .ok s =>
      match renderBillItems rest with
      | .error e => .error e
      | .ok t => .ok (s ++ t)

/-- Bill totals block: subtotal, CGST, SGST (2 decimals, the tax lines
prefixed with a plus sign), separator, bold double-height total (0
decimals), separator. -/
def billTotalsBlock (subS cgstS sgstS totS : String) : String :=
  twoCol "Subtotal:" ("Rs " ++ subS) 40 ++ twoCol "CGST 2.5%:" ("+" ++ cgstS) 40 ++
  twoCol "SGST 2.5%:" ("+" ++ sgstS) 40 ++ dashLine ++
  CMD.BOLD_ON ++ CMD.DOUBLE_HEIGHT ++ twoCol "TOTAL:" ("Rs " ++ totS) 40 ++
  CMD.NORMAL_TEXT ++ CMD.BOLD_OFF ++ dashLine

/-- Bill regulatory footer block. -/
def billFooterBlock : String :=
  CMD.ALIGN_CENTER ++ "GST: 27AA0FH7156G1Z0\n" ++ "CIN: 6731\n" ++
  "FSSAI: 21524005001190\n" ++ "\n" ++ CMD.BOLD_ON ++ "Thank You! Visit Again :)\n" ++
  CMD.BOLD_OFF

/-- The fully assembled bill document, given the already-rendered item rows
and formatted amounts. -/
def billDoc (orderId kot_code : String) (KDSInvoiceId : Option String) (od : OrderDetails)
    (orderType : Option String) (env : Env) (itemsS subS cgstS sgstS totS : String) : String :=
  CMD.INIT ++ billHeaderBlock ++ billKotBlock kot_code ++
  billInfoBlock orderId KDSInvoiceId (getDateTime env)
    (jsOr orderType (jsOr od.billType "DINE IN")) (jsOr od.kiosk "KTR1") ++
  billItemsHeader ++ itemsS ++ dashLine ++ billTotalsBlock subS cgstS sgstS totS ++
  billFooterBlock ++ CMD.FEED3 ++ CMD.CUT

/-- `buildBillEscPos`: the customer bill builder.  The `toFixed` calls are
evaluated in source order (item rows, subtotal, CGST, SGST, total); the
first thrown `TypeError` propagates as the error result. -/
def buildBillEscPos (orderId kot_code : String) (KDSInvoiceId : Option String)
    (od : OrderDetails) (orderType : Option String) (transactionDetails : Unit)
    (env : Env) : Except String String :=
  match renderBillItems (od.items.getD []) with
  | .error e => .error e
  | .ok itemsS =>
    match jsToFixed od.subtotal 2 with
    | .error e => .error e
    | .ok subS =>
      match jsToFixed (jsDiv od.tax (.num 2)) 2 with
      | .error e => .error e
      | .ok cgstS =>
        match jsToFixed (jsDiv od.tax (.num 2)) 2 with
        | .error e => .error e
        | .ok sgstS =>
          match jsToFixed od.total 0 with
          | .error e => .error e
          | .ok totS =>
            .ok (billDoc orderId kot_code KDSInvoiceId od orderType env
              itemsS subS cgstS sgstS totS)

/-- KOT token block: large token (ticket code with the first four
characters stripped), then the full code. -/
def kotTokenBlock (kot_code : String) : String :=
  CMD.ALIGN_CENTER ++ CMD.DOUBLE_BOTH ++ (strSliceFrom kot_code 4 ++ "\n") ++
  CMD.NORMAL_TEXT ++ ("KOT: " ++ kot_code ++ "\n") ++ dashLine

/-- KOT metadata block (bill type, reconstructed bill number, date/time,
kiosk); identical text in the food and coffee tickets. -/
def kotInfoBlock (orderId : String) (od : OrderDetails) (env : Env) : String :=
  CMD.ALIGN_LEFT ++ ("BILL TYPE : " ++ jsOr od.billType "DINE IN" ++ "\n") ++
  ("BILL NO   : KTR-" ++ strSlice orderId 4 10 ++ "\n") ++
  ("DATE/TIME : " ++ getDateTime env ++ "\n") ++
  ("KIOSK     : " ++ jsOr od.kiosk "KTR1" ++ "\n") ++ dashLine

/-- One KOT item row: quantity left-justified to 5, item name, then
indented customizations. -/
def kotItemRow (item : Item) : String :=
  padEnd (jsString item.quantity) 5 ++ item.itemName ++ "\n" ++
  custLines "       + " item.selectedCustomizations

/-- `buildFoodKOTEscPos`: the food ticket builder; `none` when there is no
non-coffee item. -/
def buildFoodKOTEscPos (orderId kot_code : String) (KDSInvoiceId : Option String)
    (od : OrderDetails) (env : Env) : Option String :=
  let foodItems := foodItemsOf od
  if foodItems.length = 0 then none
  else
    some (CMD.INIT ++
      (CMD.ALIGN_CENTER ++ CMD.BOLD_ON ++ "Karnataka Tiffin Room (Versova)\n" ++
        CMD.BOLD_OFF ++ "*** FOOD KOT ***\n" ++ dashLine) ++
      kotTokenBlock kot_code ++ kotInfoBlock orderId od env ++
      (CMD.BOLD_ON ++ "QTY  ITEM\n" ++ CMD.BOLD_OFF ++ dashLine) ++
      String.join (foodItems.map kotItemRow) ++
      (dashLine ++ "Instruction:\n" ++ "\n") ++ CMD.FEED3 ++ CMD.CUT)

/-- `buildCoffeeKOTEscPos`: the coffee ticket builder; `none` when there is
no coffee item. -/
def buildCoffeeKOTEscPos (orderId kot_code : String) (KDSInvoiceId : Option String)
    (od : OrderDetails) (env : Env) : Option String :=
  let coffeeItems := coffeeItemsOf od
  if coffeeItems.length = 0 then none
  else
    some (CMD.INIT ++
      (CMD.ALIGN_CENTER ++ CMD.BOLD_ON ++ "Karnataka Tiffin Room (Versova)\n" ++
        CMD.BOLD_OFF ++ "*** COFFEE KOT ***\n" ++ "--- COFFEE COUNTER ---\n" ++ dashLine) ++
      kotTokenBlock kot_code ++ kotInfoBlock orderId od env ++
      (CMD.BOLD_ON ++ "QTY  COFFEE ITEM\n" ++ CMD.BOLD_OFF ++ dashLine) ++
      String.join (coffeeItems.map kotItemRow) ++
      (dashLine ++ "Instruction: COFFEE COUNTER\n" ++ "\n") ++ CMD.FEED3 ++ CMD.CUT)

/-- The payload of a successful build, or the empty string on a thrown
error (convenience projection; a built document is never empty, since it
starts with the reset sequence). -/
def okD : Except String String → String
  | .ok s => s
  | .error _ => ""

/-- Whether an `Except` result is a success. -/
def exceptIsOk : Except String String → Bool
  | .ok _ => true
  | .error _ => false

/-- Whether a JavaScript value is of number type (NaN included). -/
def isNumberV : JVal → Bool
  | .num _ => true
  | .nan => true
  | _ => false

/-- Observable effects of the dispatch adapter: a console log, or a
`window.AndroidPrint.printBill(channel, secondary, payload)` call. -/
inductive PAction where
  | consoleLog (msg : String)
  | printBill (channel secondary payload : String)
deriving DecidableEq

/-- Whether an action is a bridge print call. -/
def isPrintAction : PAction → Bool
  | .printBill _ _ _ => true
  | _ => false

/-- `androidPrintBill`: builds the bill and sends it over the bridge.  When
the builder throws, the error propagates before any bridge call. -/
def androidPrintBill (orderId kot_code : String) (KDSInvoiceId : Option String)
    (od : OrderDetails) (orderType : Option String) (transactionDetails : Unit)
    (env : Env) : Except String (List PAction) :=
  match buildBillEscPos orderId kot_code KDSInvoiceId od orderType transactionDetails env with
  | .error e => .error e
  | .ok escPos =>
    .ok [.consoleLog "[AndroidPrint] 🧾 Sending Bill to printer...",
         .printBill "USB" "" escPos]

/-- `androidPrintFoodKOT`: sends the food ticket, or logs a skip and
returns `false` when the builder produced no document.  (The source tests
`!escPos`; a built document always starts with the reset sequence, so the
only falsy value reaching the test is `null`.) -/
def androidPrintFoodKOT (orderId kot_code : String) (KDSInvoiceId : Option String)
    (od : OrderDetails) (env : Env) : List PAction × Bool :=
  match buildFoodKOTEscPos orderId kot_code KDSInvoiceId od env with
  | none => ([.consoleLog "[AndroidPrint] ⚠️ No food items - Food KOT skipped"], false)
  | some escPos =>
    ([.consoleLog "[AndroidPrint] 📄 Sending Food KOT to printer...",
      .printBill "USB" "" escPos], true)

/-- `androidPrintCoffeeKOT`: coffee counterpart of `androidPrintFoodKOT`. -/
def androidPrintCoffeeKOT (orderId kot_code : String) (KDSInvoiceId : Option String)
    (od : OrderDetails) (env : Env) : List PAction × Bool :=
  match buildCoffeeKOTEscPos orderId kot_code KDSInvoiceId od env with
  | none => ([.consoleLog "[AndroidPrint] ⚠️ No coffee items - Coffee KOT skipped"], false)
  | some escPos =>
    ([.consoleLog "[AndroidPrint] ☕ Sending Coffee KOT to printer...",
      .printBill "USB" "" escPos], true)

/-- A `setTimeout` registration: the delay in milliseconds and the actions
the deferred callback emits when it fires.  Both timers are registered at
the single scheduling point of `androidPrintAll`, so the delays are
measured from its start, not chained from each other. -/
structure ScheduledTask where
  delayMs : ℕ
  actions : List PAction
deriving DecidableEq

/-- `androidPrintAll`: logs, dispatches the bill immediately, and registers
the two deferred ticket dispatches (350 ms and 700 ms).  `env` is the clock
at the immediate dispatch; `envFood` and `envCoffee` are the clocks at the
moments the two deferred callbacks fire (the source re-reads `new Date()`
then).  A thrown bill error propagates before either timer is registered,
as in the source; the model then drops the already-emitted start log. -/
def androidPrintAll (orderId kot_code : String) (KDSInvoiceId : Option String)
    (od : OrderDetails) (orderType : Option String) (transactionDetails : Unit)
    (env envFood envCoffee : Env) : Except String (List PAction × List ScheduledTask) :=
  match androidPrintBill orderId kot_code KDSInvoiceId od orderType transactionDetails env with
  | .error e => .error e
  | .ok billActs =>
    .ok (PAction.consoleLog "[AndroidPrint] ✅ Android bridge detected — starting USB print..." ::
        billActs,
      [⟨350, (androidPrintFoodKOT orderId kot_code KDSInvoiceId od envFood).1⟩,
       ⟨700, (androidPrintCoffeeKOT orderId kot_code KDSInvoiceId od envCoffee).1⟩])

/-- `pat` occurs contiguously inside `s`. -/
def StrContains (s pat : String) : Prop := pat.data <:+: s.data

instance (s pat : String) : Decidable (StrContains s pat) :=
  inferInstanceAs (Decidable (pat.data <:+: s.data))

/-- `s` begins with `pat`. -/
def StrStartsWith (s pat : String) : Prop := ∃ t : String, s = pat ++ t

/-- `s` ends with `pat`. -/
def StrEndsWith (s pat : String) : Prop := ∃ t : String, s = t ++ pat

/-- `s` has exactly one decimal point, with exactly two characters after
it. -/
def TwoDecimals (s : String) : Prop :=
  ∃ a b : String, s = a ++ ("." ++ b) ∧ b.length = 2 ∧
    (∀ c ∈ a.data, c ≠ '.') ∧ ∀ c ∈ b.data, c ≠ '.'

/-- `s` has no decimal point. -/
def NoDotIn (s : String) : Prop := ∀ c ∈ s.data, c ≠ '.'

/-- Modelled from the spec: the order-type fallback chain written with
nullish coalescing, `orderType ?? orderDetails.billType ?? "DINE IN"` (the
first non-missing value).  The source uses `||` instead; this definition
follows the spec wording, for comparison against the source behaviour. -/
def specOrderTypeChain (orderType billType : Option String) : String :=
  orderType.getD (billType.getD "DINE IN")

/-- The non-null documents the three builders produce for one order, in
builder order. -/
def builtDocs (orderId kot_code : String) (KDSInvoiceId : Option String)
    (od : OrderDetails) (orderType : Option String) (transactionDetails : Unit)
    (env : Env) : List String :=
  (match buildBillEscPos orderId kot_code KDSInvoiceId od orderType transactionDetails env with
   | .ok d => [d]
   | .error _ => []) ++
  (match buildFoodKOTEscPos orderId kot_code KDSInvoiceId od env with
   | some d => [d]
   | none => []) ++
  (match buildCoffeeKOTEscPos orderId kot_code KDSInvoiceId od env with
   | some d => [d]
   | none => [])

/-! ### String infrastructure -/

theorem strData_app (a b : String) : (a ++ b).data = a.data ++ b.data := rfl

theorem strEq_of_data {s t : String} (h : s.data = t.data) : s = t := by
  cases s; cases t; cases h; rfl

theorem strApp_assoc (a b c : String) : (a ++ b) ++ c = a ++ (b ++ c) :=
  strEq_of_data (by simp [strData_app])

theorem strLen_app (a b : String) : (a ++ b).length = a.length + b.length := by
  show (a.data ++ b.data).length = a.data.length + b.data.length
  exact List.length_append a.data b.data

theorem strLen_mk (l : List Char) : (String.mk l).length = l.length := rfl

theorem strContains_self_app (pat t : String) : StrContains (pat ++ t) pat :=
  ⟨[], t.data, by simp [strData_app]⟩

theorem strContains_app_left {s : String} (t : String) {pat : String}
    (h : StrContains s pat) : StrContains (s ++ t) pat := by
  obtain ⟨u, v, huv⟩ := h
  exact ⟨u, v ++ t.data, by simp [strData_app, ← huv]⟩

theorem strContains_app_right (s : String) {t pat : String}
    (h : StrContains t pat) : StrContains (s ++ t) pat := by
  obtain ⟨u, v, huv⟩ := h
  exact ⟨s.data ++ u, v, by simp [strData_app, ← huv]⟩

theorem strContains_trans {s mid pat : String} (h1 : StrContains mid pat)
    (h2 : StrContains s mid) : StrContains s pat := h1.trans h2

theorem strEndsWith_refl (pat : String) : StrEndsWith pat pat :=
  ⟨"", strEq_of_data (by simp [strData_app])⟩

theorem strEndsWith_app (a : String) {b pat : String} (h : StrEndsWith b pat) :
    StrEndsWith (a ++ b) pat := by
  obtain ⟨t, ht⟩ := h
  exact ⟨a ++ t, by rw [ht, strApp_assoc]⟩

theorem strStartsWith_app (pat t : String) : StrStartsWith (pat ++ t) pat := ⟨t, rfl⟩

/-! ### JavaScript value lemmas -/

theorem jsMul_isNumber (a b : JVal) : isNumberV (jsMul a b) = true := by
  unfold jsMul
  cases jsToNumber a <;> cases jsToNumber b <;> rfl

theorem jsDiv_isNumber (a b : JVal) : isNumberV (jsDiv a b) = true := by
  unfold jsDiv
  cases jsToNumber a <;> cases jsToNumber b <;> rfl

theorem jsToFixed_ok_of_isNumber {v : JVal} (d : ℕ) (h : isNumberV v = true) :
    ∃ s, jsToFixed v d = .ok s := by
  cases v with
  | nan => exact ⟨"NaN", rfl⟩
  | num q => exact ⟨ratToFixed q d, rfl⟩
  | undef => simp [isNumberV] at h
  | str s => simp [isNumberV] at h

theorem jsDiv_num_num (x y : ℚ) : jsDiv (.num x) (.num y) = .num (x / y) := rfl

theorem jsMul_num_num (x y : ℚ) : jsMul (.num x) (.num y) = .num (x * y) := rfl

theorem renderBillItem_ok (item : Item) : ∃ s, renderBillItem item = .ok s := by
  obtain ⟨t, ht⟩ := jsToFixed_ok_of_isNumber 2 (jsMul_isNumber item.price item.quantity)
  exact ⟨_, by rw [renderBillItem, ht]⟩

theorem renderBillItems_ok (l : List Item) : ∃ s, renderBillItems l = .ok s := by
  induction l with
  | nil => exact ⟨"", rfl⟩
  | cons item rest ih =>
    obtain ⟨s, hs⟩ := renderBillItem_ok item
    obtain ⟨t, ht⟩ := ih
    exact ⟨s ++ t, by rw [renderBillItems, hs, ht]⟩

theorem renderBillItems_contains {l : List Item} {s : String}
    (hl : renderBillItems l = .ok s) {item : Item} (hm : item ∈ l) {ri : String}
    (hi : renderBillItem item = .ok ri) : StrContains s ri := by
  induction l generalizing s with
  | nil => cases hm
  | cons x rest ih =>
    obtain ⟨sx, hsx⟩ := renderBillItem_ok x
    obtain ⟨st, hst⟩ := renderBillItems_ok rest
    rw [renderBillItems, hsx, hst] at hl
    cases hl
    rcases List.mem_cons.mp hm with h | h
    · subst h
      rw [hsx] at hi
      cases hi
      exact strContains_self_app _ _
    · exact strContains_app_right _ (ih hst h)

/-! ### Digit and `toFixed` shape lemmas -/

theorem natDigitChar_ne_dot {k : ℕ} (h : k < 10) : natDigitChar k ≠ '.' := by
  interval_cases k <;> decide

theorem natStrAux_ne_dot :
    ∀ (fuel n : ℕ) (acc : List Char), (∀ c ∈ acc, c ≠ '.') →
      ∀ c ∈ natStrAux fuel n acc, c ≠ '.' := by
  intro fuel
  induction fuel with
  | zero => intro n acc hacc; exact hacc
  | succ fuel ih =>
    intro n acc hacc c hc
    rw [natStrAux] at hc
    by_cases h : n < 10
    · rw [if_pos h] at hc
      rcases List.mem_cons.mp hc with h1 | h1
      · subst h1; exact natDigitChar_ne_dot h
      · exact hacc c h1
    · rw [if_neg h] at hc
      refine ih (n / 10) _ ?_ c hc
      intro d hd
      rcases List.mem_cons.mp hd with h1 | h1
      · subst h1; exact natDigitChar_ne_dot (Nat.mod_lt n (by omega))
      · exact hacc d h1

theorem natStr_ne_dot (n : ℕ) : ∀ c ∈ (natStr n).data, c ≠ '.' := by
  intro c hc
  exact natStrAux_ne_dot (n + 1) n [] (by simp) c hc

theorem fracDigits_length (n d : ℕ) : (fracDigits n d).length = d := by
  induction d generalizing n with
  | zero => rfl
  | succ d ih => simp [fracDigits, ih]

theorem fracDigits_ne_dot (n d : ℕ) : ∀ c ∈ fracDigits n d, c ≠ '.' := by
  induction d generalizing n with
  | zero => intro c hc; cases hc
  | succ d ih =>
    intro c hc
    rw [fracDigits] at hc
    rcases List.mem_append.mp hc with h | h
    · exact ih _ c h
    · rw [List.mem_singleton.mp h]
      exact natDigitChar_ne_dot (Nat.mod_lt n (by omega))

theorem ratSign_ne_dot (q : ℚ) : ∀ c ∈ (if q < 0 then "-" else "").data, c ≠ '.' := by
  split_ifs <;> decide

theorem twoDecimals_ratToFixed (q : ℚ) : TwoDecimals (ratToFixed q 2) := by
  refine ⟨(if q < 0 then "-" else "") ++ natStr (ratHalfUp (|q| * 10 ^ 2) / 10 ^ 2),
    String.mk (fracDigits (ratHalfUp (|q| * 10 ^ 2) % 10 ^ 2) 2), ?_, ?_, ?_, ?_⟩
  · simp only [ratToFixed]
    rw [if_neg (by decide), strApp_assoc]
  · rw [strLen_mk, fracDigits_length]
  · intro c hc
    rw [strData_app] at hc
    rcases List.mem_append.mp hc with h | h
    · exact ratSign_ne_dot q c h
    · exact natStr_ne_dot _ c h
  · intro c hc
    exact fracDigits_ne_dot _ 2 c hc

theorem noDot_ratToFixed_zero (q : ℚ) : NoDotIn (ratToFixed q 0) := by
  intro c hc
  simp only [ratToFixed] at hc
  rw [if_pos trivial, strData_app] at hc
  rcases List.mem_append.mp hc with h | h
  · exact ratSign_ne_dot q c h
  · exact natStr_ne_dot _ c h

/-! ### Concrete `toFixed` evaluations -/

theorem ratHalfUp_natCast (n : ℕ) : ratHalfUp ((n : ℕ) : ℚ) = n := by
  simp [ratHalfUp, Rat.num_natCast, Rat.den_natCast]
  omega

theorem ratHalfUp_eq_of_eq {x : ℚ} {n : ℕ} (h : x = (n : ℚ)) : ratHalfUp x = n := by
  rw [h]; exact ratHalfUp_natCast n

theorem ratToFixed_hundred : ratToFixed 100 2 = "100.00" := by
  norm_num [ratToFixed]
  rw [ratHalfUp_eq_of_eq (show (10000 : ℚ) = ((10000 : ℕ) : ℚ) by norm_num)]
  decide

theorem ratToFixed_fifty_times_two : ratToFixed ((50 : ℚ) * 2) 2 = "100.00" := by
  norm_num [ratToFixed]
  rw [ratHalfUp_eq_of_eq (show (10000 : ℚ) = ((10000 : ℕ) : ℚ) by norm_num)]
  decide

theorem ratToFixed_ten_halved : ratToFixed ((10 : ℚ) / 2) 2 = "5.00" := by
  norm_num [ratToFixed]
  rw [ratHalfUp_eq_of_eq (show (500 : ℚ) = ((500 : ℕ) : ℚ) by norm_num)]
  decide

theorem ratToFixed_one_one_zero : ratToFixed 110 0 = "110" := by
  norm_num [ratToFixed]
  rw [ratHalfUp_eq_of_eq (show (110 : ℚ) = ((110 : ℕ) : ℚ) by norm_num)]
  decide

/-! ### Bill builder success forms -/

theorem buildBill_ok_of_isNumber (orderId kot_code : String) (KDSInvoiceId : Option String)
    (od : OrderDetails) (orderType : Option String) (env : Env)
    (hs : isNumberV od.subtotal = true) (ht : isNumberV od.total = true) :
    ∃ doc, buildBillEscPos orderId kot_code KDSInvoiceId od orderType () env = .ok doc := by
  obtain ⟨itemsS, hI⟩ := renderBillItems_ok (od.items.getD [])
  obtain ⟨subS, hsub⟩ := jsToFixed_ok_of_isNumber 2 hs
  obtain ⟨cg, hcg⟩ := jsToFixed_ok_of_isNumber 2 (jsDiv_isNumber od.tax (.num 2))
  obtain ⟨tt, htt⟩ := jsToFixed_ok_of_isNumber 0 ht
  refine ⟨billDoc orderId kot_code KDSInvoiceId od orderType env itemsS subS cg cg tt, ?_⟩
  unfold buildBillEscPos
  rw [hI, hsub, hcg, htt]

theorem buildBill_eq_ok (orderId kot_code : String) (KDSInvoiceId : Option String)
    (od : OrderDetails) (orderType : Option String) (env : Env) {qs qt qT : ℚ}
    (hs : od.subtotal = .num qs) (htax : od.tax = .num qt) (hT : od.total = .num qT)
    {itemsS : String} (hI : renderBillItems (od.items.getD []) = .ok itemsS) :
    buildBillEscPos orderId kot_code KDSInvoiceId od orderType () env =
      .ok (billDoc orderId kot_code KDSInvoiceId od orderType env itemsS
        (ratToFixed qs 2) (ratToFixed (qt / 2) 2) (ratToFixed (qt / 2) 2)
        (ratToFixed qT 0)) := by
  unfold buildBillEscPos
  rw [hI, hs, htax, hT]
  rfl

/-! ### Containment navigation inside the bill document -/

theorem strContains_refl (pat : String) : StrContains pat pat :=
  ⟨[], [], by simp⟩

theorem strContains_of_split {s pat : String} (a b : String) (h : s = a ++ pat ++ b) :
    StrContains s pat := by
  refine ⟨a.data, b.data, ?_⟩
  rw [h]
  rfl

theorem billDoc_contains_info_block (orderId kot_code : String)
    (KDSInvoiceId : Option String) (od : OrderDetails) (orderType : Option String)
    (env : Env) (itemsS subS cgstS sgstS totS : String) :
    StrContains (billDoc orderId kot_code KDSInvoiceId od orderType env
        itemsS subS cgstS sgstS totS)
      (billInfoBlock orderId KDSInvoiceId (getDateTime env)
        (jsOr orderType (jsOr od.billType "DINE IN")) (jsOr od.kiosk "KTR1")) := by
  apply strContains_of_split (CMD.INIT ++ billHeaderBlock ++ billKotBlock kot_code)
    (billItemsHeader ++ itemsS ++ dashLine ++ billTotalsBlock subS cgstS sgstS totS ++
      billFooterBlock ++ CMD.FEED3 ++ CMD.CUT)
  apply strEq_of_data
  simp [billDoc, strData_app, List.append_assoc]

theorem billDoc_contains_items_str (orderId kot_code : String)
    (KDSInvoiceId : Option String) (od : OrderDetails) (orderType : Option String)
    (env : Env) (itemsS subS cgstS sgstS totS : String) :
    StrContains (billDoc orderId kot_code KDSInvoiceId od orderType env
      itemsS subS cgstS sgstS totS) itemsS := by
  apply strContains_of_split (CMD.INIT ++ billHeaderBlock ++ billKotBlock kot_code ++
      billInfoBlock orderId KDSInvoiceId (getDateTime env)
        (jsOr orderType (jsOr od.billType "DINE IN")) (jsOr od.kiosk "KTR1") ++
      billItemsHeader)
    (dashLine ++ billTotalsBlock subS cgstS sgstS totS ++ billFooterBlock ++
      CMD.FEED3 ++ CMD.CUT)
  apply strEq_of_data
  simp [billDoc, strData_app, List.append_assoc]

theorem billDoc_contains_totals_block (orderId kot_code : String)
    (KDSInvoiceId : Option String) (od : OrderDetails) (orderType : Option String)
    (env : Env) (itemsS subS cgstS sgstS totS : String) :
    StrContains (billDoc orderId kot_code KDSInvoiceId od orderType env
      itemsS subS cgstS sgstS totS) (billTotalsBlock subS cgstS sgstS totS) := by
  apply strContains_of_split (CMD.INIT ++ billHeaderBlock ++ billKotBlock kot_code ++
      billInfoBlock orderId KDSInvoiceId (getDateTime env)
        (jsOr orderType (jsOr od.billType "DINE IN")) (jsOr od.kiosk "KTR1") ++
      billItemsHeader ++ itemsS ++ dashLine)
    (billFooterBlock ++ CMD.FEED3 ++ CMD.CUT)
  apply strEq_of_data
  simp [billDoc, strData_app, List.append_assoc]

theorem billInfo_contains_billNo (orderId : String) (kds : Option String)
    (dt ty ki : String) :
    StrContains (billInfoBlock orderId kds dt ty ki) ("BILL NO : " ++ orderId ++ "\n") := by
  apply strContains_of_split CMD.ALIGN_LEFT
    ((if truthyStr kds then "KDS ID  : " ++ kds.getD "" ++ "\n" else "") ++
      ("DATE    : " ++ dt ++ "\n") ++ ("TYPE    : " ++ ty ++ "\n") ++
      ("KIOSK   : " ++ ki ++ "\n") ++ dashLine)
  apply strEq_of_data
  simp [billInfoBlock, strData_app, List.append_assoc]

theorem billInfo_contains_type (orderId : String) (kds : Option String) (dt ty ki : String) :
    StrContains (billInfoBlock orderId kds dt ty ki) ("TYPE    : " ++ ty ++ "\n") := by
  apply strContains_of_split
    (CMD.ALIGN_LEFT ++ ("BILL NO : " ++ orderId ++ "\n") ++
      (if truthyStr kds then "KDS ID  : " ++ kds.getD "" ++ "\n" else "") ++
      ("DATE    : " ++ dt ++ "\n"))
    (("KIOSK   : " ++ ki ++ "\n") ++ dashLine)
  apply strEq_of_data
  simp [billInfoBlock, strData_app, List.append_assoc]

theorem billInfo_contains_kiosk (orderId : String) (kds : Option String) (dt ty ki : String) :
    StrContains (billInfoBlock orderId kds dt ty ki) ("KIOSK   : " ++ ki ++ "\n") := by
  apply strContains_of_split
    (CMD.ALIGN_LEFT ++ ("BILL NO : " ++ orderId ++ "\n") ++
      (if truthyStr kds then "KDS ID  : " ++ kds.getD "" ++ "\n" else "") ++
      ("DATE    : " ++ dt ++ "\n") ++ ("TYPE    : " ++ ty ++ "\n"))
    dashLine
  apply strEq_of_data
  simp [billInfoBlock, strData_app, List.append_assoc]

theorem billTotals_contains_sub (s c g t : String) :
    StrContains (billTotalsBlock s c g t) (twoCol "Subtotal:" ("Rs " ++ s) 40) := by
  apply strContains_of_split ""
    (twoCol "CGST 2.5%:" ("+" ++ c) 40 ++ twoCol "SGST 2.5%:" ("+" ++ g) 40 ++ dashLine ++
      CMD.BOLD_ON ++ CMD.DOUBLE_HEIGHT ++ twoCol "TOTAL:" ("Rs " ++ t) 40 ++
      CMD.NORMAL_TEXT ++ CMD.BOLD_OFF ++ dashLine)
  apply strEq_of_data
  simp [billTotalsBlock, strData_app, List.append_assoc]

theorem billTotals_contains_cgst (s c g t : String) :
    StrContains (billTotalsBlock s c g t) (twoCol "CGST 2.5%:" ("+" ++ c) 40) := by
  apply strContains_of_split (twoCol "Subtotal:" ("Rs " ++ s) 40)
    (twoCol "SGST 2.5%:" ("+" ++ g) 40 ++ dashLine ++ CMD.BOLD_ON ++ CMD.DOUBLE_HEIGHT ++
      twoCol "TOTAL:" ("Rs " ++ t) 40 ++ CMD.NORMAL_TEXT ++ CMD.BOLD_OFF ++ dashLine)
  apply strEq_of_data
  simp [billTotalsBlock, strData_app, List.append_assoc]

theorem billTotals_contains_sgst (s c g t : String) :
    StrContains (billTotalsBlock s c g t) (twoCol "SGST 2.5%:" ("+" ++ g) 40) := by
  apply strContains_of_split
    (twoCol "Subtotal:" ("Rs " ++ s) 40 ++ twoCol "CGST 2.5%:" ("+" ++ c) 40)
    (dashLine ++ CMD.BOLD_ON ++ CMD.DOUBLE_HEIGHT ++ twoCol "TOTAL:" ("Rs " ++ t) 40 ++
      CMD.NORMAL_TEXT ++ CMD.BOLD_OFF ++ dashLine)
  apply strEq_of_data
  simp [billTotalsBlock, strData_app, List.append_assoc]

theorem billTotals_contains_total (s c g t : String) :
    StrContains (billTotalsBlock s c g t) (twoCol "TOTAL:" ("Rs " ++ t) 40) := by
  apply strContains_of_split
    (twoCol "Subtotal:" ("Rs " ++ s) 40 ++ twoCol "CGST 2.5%:" ("+" ++ c) 40 ++
      twoCol "SGST 2.5%:" ("+" ++ g) 40 ++ dashLine ++ CMD.BOLD_ON ++ CMD.DOUBLE_HEIGHT)
    (CMD.NORMAL_TEXT ++ CMD.BOLD_OFF ++ dashLine)
  apply strEq_of_data
  simp [billTotalsBlock, strData_app, List.append_assoc]

/-! ### More layout and inversion helpers -/

theorem strStartsWith_refl (pat : String) : StrStartsWith pat pat :=
  ⟨"", strEq_of_data (by simp [strData_app])⟩

theorem strStartsWith_app_left {a : String} (b : String) {pat : String}
    (h : StrStartsWith a pat) : StrStartsWith (a ++ b) pat := by
  obtain ⟨t, ht⟩ := h
  exact ⟨t ++ b, by rw [ht, strApp_assoc]⟩

theorem twoCol_eq (l r : String) :
    twoCol l r 40 = l ++ String.mk (List.replicate
      (if l.length + r.length < 40 then 40 - (l.length + r.length) else 1) ' ') ++
      r ++ "\n" := by
  simp only [twoCol]
  by_cases h : l.length + r.length < 40
  · rw [if_pos (show (0 : ℤ) < ((40 : ℕ) : ℤ) - l.length - r.length by omega), if_pos h]
    have hk : (((40 : ℕ) : ℤ) - l.length - r.length).toNat = 40 - (l.length + r.length) := by
      omega
    rw [hk]
  · rw [if_neg (show ¬ ((0 : ℤ) < ((40 : ℕ) : ℤ) - l.length - r.length) by omega),
      if_neg h]
    rfl

theorem length_filter_not_add {α : Type} (p : α → Bool) (l : List α) :
    (l.filter (fun a => !p a)).length + (l.filter p).length = l.length := by
  induction l with
  | nil => rfl
  | cons x xs ih => by_cases hx : p x <;> simp [List.filter_cons, hx] <;> omega

theorem buildBill_ok_shape (orderId kot_code : String) (KDSInvoiceId : Option String)
    (od : OrderDetails) (orderType : Option String) (env : Env) (doc : String)
    (h : buildBillEscPos orderId kot_code KDSInvoiceId od orderType () env = .ok doc) :
    ∃ itemsS subS cgstS totS,
      renderBillItems (od.items.getD []) = .ok itemsS ∧
      jsToFixed od.subtotal 2 = .ok subS ∧
      jsToFixed (jsDiv od.tax (.num 2)) 2 = .ok cgstS ∧
      jsToFixed od.total 0 = .ok totS ∧
      doc = billDoc orderId kot_code KDSInvoiceId od orderType env
        itemsS subS cgstS cgstS totS := by
  unfold buildBillEscPos at h
  cases hI : renderBillItems (od.items.getD []) with
  | error e => rw [hI] at h; exact (Except.noConfusion h)
  | ok itemsS =>
    rw [hI] at h
    cases hsub : jsToFixed od.subtotal 2 with
    | error e => rw [hsub] at h; exact (Except.noConfusion h)
    | ok subS =>
      rw [hsub] at h
      cases hcg : jsToFixed (jsDiv od.tax (.num 2)) 2 with
      | error e => rw [hcg] at h; exact (Except.noConfusion h)
      | ok cg =>
        rw [hcg] at h
        cases htot : jsToFixed od.total 0 with
        | error e => rw [htot] at h; exact (Except.noConfusion h)
        | ok tt =>
          rw [htot] at h
          refine ⟨itemsS, subS, cg, tt, rfl, rfl, rfl, rfl, ?_⟩
          injection h with h'
          exact h'.symm

/-! ### Claim theorems -/

/-- C1: for every order, the food ticket builder returns null exactly when no
item has a category different from the coffee constant, the coffee ticket
builder returns null exactly when no item has the coffee category, and in
every other case each builder returns a (non-null) document. -/
theorem c1_ticket_null_iff (orderId kot_code : String) (KDSInvoiceId : Option String)
    (od : OrderDetails) (env : Env) :
    (buildFoodKOTEscPos orderId kot_code KDSInvoiceId od env = none ↔
      ∀ it ∈ od.items.getD [], it.categoryId = COFFEE_CATEGORY_ID) ∧
    (buildCoffeeKOTEscPos orderId kot_code KDSInvoiceId od env = none ↔
      ∀ it ∈ od.items.getD [], it.categoryId ≠ COFFEE_CATEGORY_ID) ∧
    ((∃ it ∈ od.items.getD [], it.categoryId ≠ COFFEE_CATEGORY_ID) ↔
      ∃ doc, buildFoodKOTEscPos orderId kot_code KDSInvoiceId od env = some doc) ∧
    ((∃ it ∈ od.items.getD [], it.categoryId = COFFEE_CATEGORY_ID) ↔
      ∃ doc, buildCoffeeKOTEscPos orderId kot_code KDSInvoiceId od env = some doc) := by
  have hf0 : (foodItemsOf od).length = 0 ↔
      ∀ it ∈ od.items.getD [], it.categoryId = COFFEE_CATEGORY_ID := by
    rw [List.length_eq_zero]
    simp [foodItemsOf, List.filter_eq_nil_iff]
  have hc0 : (coffeeItemsOf od).length = 0 ↔
      ∀ it ∈ od.items.getD [], it.categoryId ≠ COFFEE_CATEGORY_ID := by
    rw [List.length_eq_zero]
    simp [coffeeItemsOf, List.filter_eq_nil_iff]
  refine ⟨?_, ?_, ?_, ?_⟩
  · simp only [buildFoodKOTEscPos]
    split_ifs with h
    · exact iff_of_true rfl (hf0.mp h)
    · exact iff_of_false (by simp) fun hall => h (hf0.mpr hall)
  · simp only [buildCoffeeKOTEscPos]
    split_ifs with h
    · exact iff_of_true rfl (hc0.mp h)
    · exact iff_of_false (by simp) fun hall => h (hc0.mpr hall)
  · simp only [buildFoodKOTEscPos]
    split_ifs with h
    · refine iff_of_false ?_ (by simp)
      rintro ⟨it, hit, hne⟩
      exact hne (hf0.mp h it hit)
    · refine iff_of_true ?_ ⟨_, rfl⟩
      by_contra hex
      push_neg at hex
      exact h (hf0.mpr hex)
  · simp only [buildCoffeeKOTEscPos]
    split_ifs with h
    · refine iff_of_false ?_ (by simp)
      rintro ⟨it, hit, heq⟩
      exact hc0.mp h it hit heq
    · refine iff_of_true ?_ ⟨_, rfl⟩
      by_contra hex
      push_neg at hex
      exact h (hc0.mpr hex)

/-- C4: every item of the order belongs to the food builder's filtered set
exactly when its category id differs from the coffee constant, to the
coffee builder's set exactly when it equals it (plain string equality, no
normalization), hence to exactly one of the two; the two filtered sets
together have exactly as many entries as the item list. -/
theorem c4_item_partition (od : OrderDetails) (it : Item)
    (h : it ∈ od.items.getD []) :
    (it ∈ foodItemsOf od ↔ it.categoryId ≠ COFFEE_CATEGORY_ID) ∧
    (it ∈ coffeeItemsOf od ↔ it.categoryId = COFFEE_CATEGORY_ID) ∧
    (it ∈ foodItemsOf od ↔ ¬ it ∈ coffeeItemsOf od) ∧
    (foodItemsOf od).length + (coffeeItemsOf od).length = (od.items.getD []).length := by
  have h1 : it ∈ foodItemsOf od ↔ it.categoryId ≠ COFFEE_CATEGORY_ID := by
    simp [foodItemsOf, List.mem_filter, h]
  have h2 : it ∈ coffeeItemsOf od ↔ it.categoryId = COFFEE_CATEGORY_ID := by
    simp [coffeeItemsOf, List.mem_filter, h]
  refine ⟨h1, h2, ?_, ?_⟩
  · rw [h1, h2]
  · have hp := length_filter_not_add
      (fun i : Item => i.categoryId == COFFEE_CATEGORY_ID) (od.items.getD [])
    simpa [foodItemsOf, coffeeItemsOf, bne] using hp

/-- C4 witness: the partition at a concrete two-item order. -/
theorem c4_witness :
    let itF : Item := ⟨"Dosa", JVal.nan, JVal.nan, "food-cat", none⟩
    let itC : Item := ⟨"Filter Coffee", JVal.nan, JVal.nan, "6868ca5dc29c8ed4d3c98dd8", none⟩
    let od0 : OrderDetails := ⟨none, none, JVal.nan, JVal.nan, JVal.nan, some [itF, itC]⟩
    (itF ∈ foodItemsOf od0 ↔ itF.categoryId ≠ COFFEE_CATEGORY_ID) ∧
    (itF ∈ coffeeItemsOf od0 ↔ itF.categoryId = COFFEE_CATEGORY_ID) ∧
    (itF ∈ foodItemsOf od0 ↔ ¬ itF ∈ coffeeItemsOf od0) ∧
    (foodItemsOf od0).length + (coffeeItemsOf od0).length = (od0.items.getD []).length := by
  intro itF itC od0
  exact c4_item_partition od0 itF (by decide)

/-- C6: `twoCol` places the left text flush left and the right text flush
right in a 40-column row terminated by a newline, inserting exactly one
space instead of negative padding once the combined length reaches the
width, and never truncates: the row length without the terminator is at
least the sum of both lengths plus one. -/
theorem c6_twoCol_layout (l r : String) :
    twoCol l r 40 = l ++ String.mk (List.replicate
      (if l.length + r.length < 40 then 40 - (l.length + r.length) else 1) ' ') ++
      r ++ "\n" ∧
    (twoCol l r 40).length =
      (if l.length + r.length < 40 then 41 else l.length + r.length + 2) ∧
    l.length + r.length + 1 ≤ (twoCol l r 40).length - 1 := by
  have he := twoCol_eq l r
  have hmk : ∀ k : ℕ, (String.mk (List.replicate k ' ')).length = k := fun k => by
    rw [strLen_mk, List.length_replicate]
  have hnl : ("\n" : String).length = 1 := rfl
  refine ⟨he, ?_, ?_⟩ <;> rw [he, strLen_app, strLen_app, strLen_app, hmk, hnl] <;>
    split_ifs with h <;> omega

/-- C2 counterexample: with `subtotal` missing (undefined) the bill builder
does not return a document; it raises a `TypeError` (member access on
undefined), even though every other field is well formed. -/
theorem c2_counterexample_missing_subtotal :
    exceptIsOk (buildBillEscPos "ORD-1" "KOT-1" none
      ⟨none, none, JVal.undef, JVal.num 10, JVal.num 110, some []⟩ none ()
      ⟨"01/01/2025", "10:00 AM"⟩) = false := by
  rfl

/-- C2 amended: the bill builder tolerates missing or non-numeric `price`,
`quantity` and `tax` (they surface as NaN text), and returns a document
whenever `subtotal` and `total` are of number type; when `subtotal` (or,
with `subtotal` a number, `total`) is missing or a string, it raises an
error instead of returning a document. -/
theorem c2_amended_numeric_totals (orderId kot_code : String)
    (KDSInvoiceId : Option String) (od : OrderDetails) (orderType : Option String)
    (env : Env) :
    (isNumberV od.subtotal = true → isNumberV od.total = true →
      ∃ doc, buildBillEscPos orderId kot_code KDSInvoiceId od orderType () env =
        .ok doc) ∧
    (isNumberV od.subtotal = false →
      exceptIsOk (buildBillEscPos orderId kot_code KDSInvoiceId od orderType () env) =
        false) ∧
    (isNumberV od.subtotal = true → isNumberV od.total = false →
      exceptIsOk (buildBillEscPos orderId kot_code KDSInvoiceId od orderType () env) =
        false) := by
  obtain ⟨itemsS, hI⟩ := renderBillItems_ok (od.items.getD [])
  refine ⟨fun hs ht => buildBill_ok_of_isNumber _ _ _ _ _ _ hs ht, ?_, ?_⟩
  · intro hs
    unfold buildBillEscPos
    rw [hI]
    cases hv : od.subtotal with
    | undef => rfl
    | str s => rfl
    | nan => rw [hv] at hs; simp [isNumberV] at hs
    | num q => rw [hv] at hs; simp [isNumberV] at hs
  · intro hs ht
    unfold buildBillEscPos
    rw [hI]
    obtain ⟨subS, hsub⟩ := jsToFixed_ok_of_isNumber 2 hs
    rw [hsub]
    obtain ⟨cg, hcg⟩ := jsToFixed_ok_of_isNumber 2 (jsDiv_isNumber od.tax (.num 2))
    rw [hcg]
    cases hv : od.total with
    | undef => rfl
    | str s => rfl
    | nan => rw [hv] at ht; simp [isNumberV] at ht
    | num q => rw [hv] at ht; simp [isNumberV] at ht

/-- C2 witness: an order with undefined price, a non-numeric quantity
string and undefined tax still yields a bill document. -/
theorem c2_witness :
    ∃ doc, buildBillEscPos "ORD-1" "KOT-1" none
      ⟨none, none, JVal.num 100, JVal.undef, JVal.num 110,
        some [⟨"Dosa", JVal.undef, JVal.str "two", "food-cat", none⟩]⟩ none ()
      ⟨"01/01/2025", "10:00 AM"⟩ = .ok doc :=
  (c2_amended_numeric_totals "ORD-1" "KOT-1" none
    ⟨none, none, JVal.num 100, JVal.undef, JVal.num 110,
      some [⟨"Dosa", JVal.undef, JVal.str "two", "food-cat", none⟩]⟩ none
    ⟨"01/01/2025", "10:00 AM"⟩).1 rfl rfl

set_option maxRecDepth 2048 in
/-- C3 counterexample: two invocations of the food ticket builder with
identical explicit arguments but different ambient clocks produce different
documents, so a builder is not a function of its explicit inputs alone. -/
theorem c3_counterexample_clock_dependence :
    buildFoodKOTEscPos "ORD-123456" "KOT-42" none
        ⟨none, none, JVal.nan, JVal.nan, JVal.nan,
          some [⟨"Dosa", JVal.undef, JVal.str "2", "food-cat", none⟩]⟩
        ⟨"01/01/2025", "10:00 AM"⟩ ≠
      buildFoodKOTEscPos "ORD-123456" "KOT-42" none
        ⟨none, none, JVal.nan, JVal.nan, JVal.nan,
          some [⟨"Dosa", JVal.undef, JVal.str "2", "food-cat", none⟩]⟩
        ⟨"02/01/2025", "10:00 AM"⟩ := by
  decide

/-- C3 amended: each builder is a deterministic function of its explicit
arguments together with the formatted current date/time; whenever the
formatted clock readings agree, identical arguments give identical
documents. -/
theorem c3_amended_clock_determinism (orderId kot_code : String)
    (KDSInvoiceId : Option String) (od : OrderDetails) (orderType : Option String)
    (env env' : Env) (h : getDateTime env = getDateTime env') :
    buildBillEscPos orderId kot_code KDSInvoiceId od orderType () env =
      buildBillEscPos orderId kot_code KDSInvoiceId od orderType () env' ∧
    buildFoodKOTEscPos orderId kot_code KDSInvoiceId od env =
      buildFoodKOTEscPos orderId kot_code KDSInvoiceId od env' ∧
    buildCoffeeKOTEscPos orderId kot_code KDSInvoiceId od env =
      buildCoffeeKOTEscPos orderId kot_code KDSInvoiceId od env' := by
  refine ⟨?_, ?_, ?_⟩
  · simp only [buildBillEscPos, billDoc, h]
  · simp only [buildFoodKOTEscPos, kotInfoBlock, h]
  · simp only [buildCoffeeKOTEscPos, kotInfoBlock, h]

/-- C3 witness: the amended determinism at one concrete order and clock. -/
theorem c3_witness :
    buildBillEscPos "ORD-123456" "KOT-42" none
        ⟨none, none, JVal.nan, JVal.nan, JVal.nan, some []⟩ none ()
        ⟨"01/01/2025", "10:00 AM"⟩ =
      buildBillEscPos "ORD-123456" "KOT-42" none
        ⟨none, none, JVal.nan, JVal.nan, JVal.nan, some []⟩ none ()
        ⟨"01/01/2025", "10:00 AM"⟩ ∧
    buildFoodKOTEscPos "ORD-123456" "KOT-42" none
        ⟨none, none, JVal.nan, JVal.nan, JVal.nan, some []⟩
        ⟨"01/01/2025", "10:00 AM"⟩ =
      buildFoodKOTEscPos "ORD-123456" "KOT-42" none
        ⟨none, none, JVal.nan, JVal.nan, JVal.nan, some []⟩
        ⟨"01/01/2025", "10:00 AM"⟩ ∧
    buildCoffeeKOTEscPos "ORD-123456" "KOT-42" none
        ⟨none, none, JVal.nan, JVal.nan, JVal.nan, some []⟩
        ⟨"01/01/2025", "10:00 AM"⟩ =
      buildCoffeeKOTEscPos "ORD-123456" "KOT-42" none
        ⟨none, none, JVal.nan, JVal.nan, JVal.nan, some []⟩
        ⟨"01/01/2025", "10:00 AM"⟩ :=
  c3_amended_clock_determinism "ORD-123456" "KOT-42" none
    ⟨none, none, JVal.nan, JVal.nan, JVal.nan, some []⟩ none
    ⟨"01/01/2025", "10:00 AM"⟩ ⟨"01/01/2025", "10:00 AM"⟩ rfl

/-- C7 counterexample: with `orderType` present but empty, the nullish
chain of the claim renders an empty order type, but the document renders
the bill type instead (the source falls through on any falsy value, not
only on missing ones): the emitted TYPE line shows "TAKEAWAY", not the
empty string the claimed chain determines. -/
theorem c7_counterexample_empty_orderType :
    specOrderTypeChain (some "") (some "TAKEAWAY") = "" ∧
    jsOr (some "") (jsOr (some "TAKEAWAY") "DINE IN") ≠
      specOrderTypeChain (some "") (some "TAKEAWAY") ∧
    ∃ doc, buildBillEscPos "ORD-1" "KOT-1" none
        ⟨some "TAKEAWAY", none, JVal.num 0, JVal.num 0, JVal.num 0, some []⟩ (some "") ()
        ⟨"01/01/2025", "10:00 AM"⟩ = .ok doc ∧
      StrContains doc "TYPE    : TAKEAWAY\n" ∧
      "TYPE    : TAKEAWAY\n" ≠
        "TYPE    : " ++ specOrderTypeChain (some "") (some "TAKEAWAY") ++ "\n" := by
  refine ⟨rfl, by decide, ?_⟩
  have hb := buildBill_eq_ok "ORD-1" "KOT-1" none
    ⟨some "TAKEAWAY", none, JVal.num 0, JVal.num 0, JVal.num 0, some []⟩ (some "")
    ⟨"01/01/2025", "10:00 AM"⟩ rfl rfl rfl rfl
  refine ⟨_, hb, ?_, by decide⟩
  have h1 := strContains_trans (billInfo_contains_type "ORD-1" none
      (getDateTime ⟨"01/01/2025", "10:00 AM"⟩)
      (jsOr (some "") (jsOr (some "TAKEAWAY") "DINE IN")) (jsOr none "KTR1"))
    (billDoc_contains_info_block "ORD-1" "KOT-1" none
      ⟨some "TAKEAWAY", none, JVal.num 0, JVal.num 0, JVal.num 0, some []⟩ (some "")
      ⟨"01/01/2025", "10:00 AM"⟩ "" (ratToFixed 0 2) (ratToFixed (0 / 2) 2)
      (ratToFixed (0 / 2) 2) (ratToFixed 0 0))
  have e : "TYPE    : " ++ jsOr (some "") (jsOr (some "TAKEAWAY") "DINE IN") ++ "\n" =
      "TYPE    : TAKEAWAY\n" := by decide
  rw [e] at h1
  exact h1

/-- C7 amended: the rendered order type is the first truthy value of
`orderType || orderDetails.billType || "DINE IN"` (an empty string also
falls through), and the rendered kiosk is `orderDetails.kiosk || "KTR1"`;
in particular missing fields fall back to "DINE IN" and "KTR1". -/
theorem c7_amended_truthy_fallback (orderId kot_code : String)
    (KDSInvoiceId : Option String) (od : OrderDetails) (orderType : Option String)
    (env : Env) (doc : String)
    (h : buildBillEscPos orderId kot_code KDSInvoiceId od orderType () env = .ok doc) :
    StrContains doc ("TYPE    : " ++ jsOr orderType (jsOr od.billType "DINE IN") ++ "\n") ∧
    StrContains doc ("KIOSK   : " ++ jsOr od.kiosk "KTR1" ++ "\n") ∧
    (orderType = none → od.billType = none → StrContains doc "TYPE    : DINE IN\n") ∧
    (od.kiosk = none → StrContains doc "KIOSK   : KTR1\n") := by
  obtain ⟨itemsS, subS, cgstS, totS, hI, hsub, hcg, htot, hdoc⟩ :=
    buildBill_ok_shape orderId kot_code KDSInvoiceId od orderType env doc h
  subst hdoc
  have h1 := strContains_trans (billInfo_contains_type orderId KDSInvoiceId
      (getDateTime env) (jsOr orderType (jsOr od.billType "DINE IN"))
      (jsOr od.kiosk "KTR1"))
    (billDoc_contains_info_block orderId kot_code KDSInvoiceId od orderType env
      itemsS subS cgstS cgstS totS)
  have h2 := strContains_trans (billInfo_contains_kiosk orderId KDSInvoiceId
      (getDateTime env) (jsOr orderType (jsOr od.billType "DINE IN"))
      (jsOr od.kiosk "KTR1"))
    (billDoc_contains_info_block orderId kot_code KDSInvoiceId od orderType env
      itemsS subS cgstS cgstS totS)
  refine ⟨h1, h2, ?_, ?_⟩
  · intro hot hbt
    have e : "TYPE    : " ++ jsOr orderType (jsOr od.billType "DINE IN") ++ "\n" =
        "TYPE    : DINE IN\n" := by rw [hot, hbt]; decide
    rw [e] at h1
    exact h1
  · intro hk
    have e : "KIOSK   : " ++ jsOr od.kiosk "KTR1" ++ "\n" = "KIOSK   : KTR1\n" := by
      rw [hk]; decide
    rw [e] at h2
    exact h2

/-- C7 witness: the fallback rendering at one concrete order. -/
theorem c7_witness :
    ∃ doc, buildBillEscPos "ORD-1" "KOT-1" none
        ⟨none, none, JVal.num 0, JVal.num 0, JVal.num 0, some []⟩ (some "TAKEAWAY") ()
        ⟨"01/01/2025", "10:00 AM"⟩ = .ok doc ∧
      StrContains doc ("TYPE    : " ++ jsOr (some "TAKEAWAY") (jsOr none "DINE IN") ++ "\n") ∧
      StrContains doc ("KIOSK   : " ++ jsOr none "KTR1" ++ "\n") := by
  have hb := buildBill_eq_ok "ORD-1" "KOT-1" none
    ⟨none, none, JVal.num 0, JVal.num 0, JVal.num 0, some []⟩ (some "TAKEAWAY")
    ⟨"01/01/2025", "10:00 AM"⟩ rfl rfl rfl rfl
  have h := c7_amended_truthy_fallback "ORD-1" "KOT-1" none
    ⟨none, none, JVal.num 0, JVal.num 0, JVal.num 0, some []⟩ (some "TAKEAWAY")
    ⟨"01/01/2025", "10:00 AM"⟩ _ hb
  exact ⟨_, hb, h.1, h.2.1⟩

/-- C8: every non-null document any of the three builders produces begins
with the printer reset sequence ESC '@' and ends with a three-newline feed
immediately followed by the paper-cut sequence GS 'V' 0x41 0x00. -/
theorem c8_document_frame (orderId kot_code : String) (KDSInvoiceId : Option String)
    (od : OrderDetails) (orderType : Option String) (env : Env) (d : String)
    (h : d ∈ builtDocs orderId kot_code KDSInvoiceId od orderType () env) :
    StrStartsWith d CMD.INIT ∧ StrEndsWith d (CMD.FEED3 ++ CMD.CUT) ∧
    CMD.INIT = "\x1B@" ∧ CMD.FEED3 ++ CMD.CUT = "\n\n\n\x1DV\x41\x00" := by
  unfold builtDocs at h
  rcases List.mem_append.mp h with h12 | h3
  · rcases List.mem_append.mp h12 with h1 | h2
    · cases hb : buildBillEscPos orderId kot_code KDSInvoiceId od orderType () env with
      | error e => rw [hb] at h1; cases h1
      | ok doc =>
        rw [hb] at h1
        have hd : d = doc := by simpa using h1
        subst hd
        obtain ⟨itemsS, subS, cgstS, totS, hI, hsub, hcg, htot, hdoc⟩ :=
          buildBill_ok_shape orderId kot_code KDSInvoiceId od orderType env _ hb
        subst hdoc
        refine ⟨?_, ?_, rfl, rfl⟩
        · simp only [billDoc]
          repeat first
          | exact strStartsWith_app CMD.INIT _
          | apply strStartsWith_app_left
        · simp only [billDoc]
          exact ⟨_, strApp_assoc _ _ _⟩
    · cases hf : buildFoodKOTEscPos orderId kot_code KDSInvoiceId od env with
      | none => rw [hf] at h2; cases h2
      | some doc =>
        rw [hf] at h2
        have hd : d = doc := by simpa using h2
        subst hd
        simp only [buildFoodKOTEscPos] at hf
        split_ifs at hf with hcond
        injection hf with hf'
        subst hf'
        refine ⟨?_, ?_, rfl, rfl⟩
        · repeat first
          | exact strStartsWith_app CMD.INIT _
          | apply strStartsWith_app_left
        · exact ⟨_, strApp_assoc _ _ _⟩
  · cases hc : buildCoffeeKOTEscPos orderId kot_code KDSInvoiceId od env with
    | none => rw [hc] at h3; cases h3
    | some doc =>
      rw [hc] at h3
      have hd : d = doc := by simpa using h3
      subst hd
      simp only [buildCoffeeKOTEscPos] at hc
      split_ifs at hc with hcond
      injection hc with hc'
      subst hc'
      refine ⟨?_, ?_, rfl, rfl⟩
      · repeat first
        | exact strStartsWith_app CMD.INIT _
        | apply strStartsWith_app_left
      · exact ⟨_, strApp_assoc _ _ _⟩

/-- C8 witness: the frame of the bill document of a concrete order. -/
theorem c8_witness :
    ∃ d, d ∈ builtDocs "ORD-1" "KOT-1" none
        ⟨none, none, JVal.num 0, JVal.num 0, JVal.num 0, some []⟩ none ()
        ⟨"01/01/2025", "10:00 AM"⟩ ∧
      StrStartsWith d CMD.INIT ∧ StrEndsWith d (CMD.FEED3 ++ CMD.CUT) ∧
      CMD.INIT = "\x1B@" ∧ CMD.FEED3 ++ CMD.CUT = "\n\n\n\x1DV\x41\x00" := by
  have hb := buildBill_eq_ok "ORD-1" "KOT-1" none
    ⟨none, none, JVal.num 0, JVal.num 0, JVal.num 0, some []⟩ none
    ⟨"01/01/2025", "10:00 AM"⟩ rfl rfl rfl rfl
  have hf : buildFoodKOTEscPos "ORD-1" "KOT-1" none
      ⟨none, none, JVal.num 0, JVal.num 0, JVal.num 0, some []⟩
      ⟨"01/01/2025", "10:00 AM"⟩ = none := rfl
  have hc : buildCoffeeKOTEscPos "ORD-1" "KOT-1" none
      ⟨none, none, JVal.num 0, JVal.num 0, JVal.num 0, some []⟩
      ⟨"01/01/2025", "10:00 AM"⟩ = none := rfl
  have hmem : billDoc "ORD-1" "KOT-1" none
      ⟨none, none, JVal.num 0, JVal.num 0, JVal.num 0, some []⟩ none
      ⟨"01/01/2025", "10:00 AM"⟩ "" (ratToFixed 0 2) (ratToFixed (0 / 2) 2)
      (ratToFixed (0 / 2) 2) (ratToFixed 0 0) ∈
      builtDocs "ORD-1" "KOT-1" none
        ⟨none, none, JVal.num 0, JVal.num 0, JVal.num 0, some []⟩ none ()
        ⟨"01/01/2025", "10:00 AM"⟩ := by
    unfold builtDocs
    rw [hb, hf, hc]
    simp
  obtain ⟨h1, h2, h3, h4⟩ := c8_document_frame "ORD-1" "KOT-1" none
    ⟨none, none, JVal.num 0, JVal.num 0, JVal.num 0, some []⟩ none
    ⟨"01/01/2025", "10:00 AM"⟩ _ hmem
  exact ⟨_, hmem, h1, h2, h3, h4⟩

/-- C10: when the item collection is missing, the food and coffee ticket
builders both return null, and the bill builder behaves exactly as on an
empty collection, still returning a document that carries the header,
the bill-number metadata line, an items section with zero rows, and the
totals block. -/
theorem c10_missing_items (orderId kot_code : String) (KDSInvoiceId : Option String)
    (od : OrderDetails) (orderType : Option String) (env : Env)
    (hitems : od.items = none) (hs : isNumberV od.subtotal = true)
    (ht : isNumberV od.total = true) :
    buildFoodKOTEscPos orderId kot_code KDSInvoiceId od env = none ∧
    buildCoffeeKOTEscPos orderId kot_code KDSInvoiceId od env = none ∧
    buildBillEscPos orderId kot_code KDSInvoiceId od orderType () env =
      buildBillEscPos orderId kot_code KDSInvoiceId { od with items := some [] }
        orderType () env ∧
    ∃ doc, buildBillEscPos orderId kot_code KDSInvoiceId od orderType () env = .ok doc ∧
      StrStartsWith doc (CMD.INIT ++ billHeaderBlock) ∧
      StrContains doc ("BILL NO : " ++ orderId ++ "\n") ∧
      StrContains doc (billItemsHeader ++ dashLine) ∧
      ∃ subS cgstS totS, StrContains doc (billTotalsBlock subS cgstS cgstS totS) := by
  refine ⟨?_, ?_, ?_, ?_⟩
  · simp [buildFoodKOTEscPos, foodItemsOf, hitems]
  · simp [buildCoffeeKOTEscPos, coffeeItemsOf, hitems]
  · rw [buildBillEscPos, buildBillEscPos, hitems]
    rfl
  · obtain ⟨doc, hb⟩ :=
      buildBill_ok_of_isNumber orderId kot_code KDSInvoiceId od orderType env hs ht
    obtain ⟨itemsS, subS, cgstS, totS, hI, hsub, hcg, htot, hdoc⟩ :=
      buildBill_ok_shape orderId kot_code KDSInvoiceId od orderType env doc hb
    have hids : itemsS = "" := by
      rw [hitems] at hI
      have h0 : (Except.ok "" : Except String String) = .ok itemsS := hI
      injection h0 with h0'
      exact h0'.symm
    subst hdoc
    subst hids
    refine ⟨_, hb, ?_, ?_, ?_, ⟨subS, cgstS, totS, ?_⟩⟩
    · simp only [billDoc]
      exact strStartsWith_app_left _ (strStartsWith_app_left _ (strStartsWith_app_left _
        (strStartsWith_app_left _ (strStartsWith_app_left _ (strStartsWith_app_left _
          (strStartsWith_app_left _ (strStartsWith_app_left _
            (strStartsWith_app (CMD.INIT ++ billHeaderBlock) (billKotBlock kot_code)))))))))
    · exact strContains_trans (billInfo_contains_billNo orderId KDSInvoiceId
        (getDateTime env) (jsOr orderType (jsOr od.billType "DINE IN"))
        (jsOr od.kiosk "KTR1"))
        (billDoc_contains_info_block orderId kot_code KDSInvoiceId od orderType env
          "" subS cgstS cgstS totS)
    · apply strContains_of_split (CMD.INIT ++ billHeaderBlock ++ billKotBlock kot_code ++
        billInfoBlock orderId KDSInvoiceId (getDateTime env)
          (jsOr orderType (jsOr od.billType "DINE IN")) (jsOr od.kiosk "KTR1"))
        (billTotalsBlock subS cgstS cgstS totS ++ billFooterBlock ++
          CMD.FEED3 ++ CMD.CUT)
      apply strEq_of_data
      simp [billDoc, strData_app, List.append_assoc,
        show ("" : String).data = [] from rfl]
    · exact billDoc_contains_totals_block orderId kot_code KDSInvoiceId od orderType env
        "" subS cgstS cgstS totS

/-- C10 witness: the missing-items behaviour at a concrete order. -/
theorem c10_witness :
    buildFoodKOTEscPos "ORD-1" "KOT-1" none
      ⟨none, none, JVal.num 0, JVal.num 0, JVal.num 0, none⟩
      ⟨"01/01/2025", "10:00 AM"⟩ = none ∧
    buildCoffeeKOTEscPos "ORD-1" "KOT-1" none
      ⟨none, none, JVal.num 0, JVal.num 0, JVal.num 0, none⟩
      ⟨"01/01/2025", "10:00 AM"⟩ = none ∧
    buildBillEscPos "ORD-1" "KOT-1" none
      ⟨none, none, JVal.num 0, JVal.num 0, JVal.num 0, none⟩ none ()
      ⟨"01/01/2025", "10:00 AM"⟩ =
      buildBillEscPos "ORD-1" "KOT-1" none
        ⟨none, none, JVal.num 0, JVal.num 0, JVal.num 0, some []⟩ none ()
        ⟨"01/01/2025", "10:00 AM"⟩ ∧
    ∃ doc, buildBillEscPos "ORD-1" "KOT-1" none
        ⟨none, none, JVal.num 0, JVal.num 0, JVal.num 0, none⟩ none ()
        ⟨"01/01/2025", "10:00 AM"⟩ = .ok doc ∧
      StrStartsWith doc (CMD.INIT ++ billHeaderBlock) ∧
      StrContains doc ("BILL NO : " ++ "ORD-1" ++ "\n") ∧
      StrContains doc (billItemsHeader ++ dashLine) ∧
      ∃ subS cgstS totS, StrContains doc (billTotalsBlock subS cgstS cgstS totS) :=
  c10_missing_items "ORD-1" "KOT-1" none
    ⟨none, none, JVal.num 0, JVal.num 0, JVal.num 0, none⟩ none
    ⟨"01/01/2025", "10:00 AM"⟩ rfl rfl rfl

/-- C5: in every bill document for an order with numeric totals, the
subtotal row and the two tax rows render with exactly two decimal places,
the CGST and SGST rows each show half of the tax prefixed with a plus
sign, the total row renders with no decimal places, and every item row of a
numeric item shows `price * quantity` to exactly two decimal places. -/
theorem c5_bill_decimal_rendering (orderId kot_code : String)
    (KDSInvoiceId : Option String) (od : OrderDetails) (orderType : Option String)
    (env : Env) (qs qt qT : ℚ) (hs : od.subtotal = JVal.num qs)
    (htax : od.tax = JVal.num qt) (hT : od.total = JVal.num qT) :
    ∃ doc, buildBillEscPos orderId kot_code KDSInvoiceId od orderType () env = .ok doc ∧
      StrContains doc (twoCol "Subtotal:" ("Rs " ++ ratToFixed qs 2) 40) ∧
      TwoDecimals (ratToFixed qs 2) ∧
      StrContains doc (twoCol "CGST 2.5%:" ("+" ++ ratToFixed (qt / 2) 2) 40) ∧
      StrContains doc (twoCol "SGST 2.5%:" ("+" ++ ratToFixed (qt / 2) 2) 40) ∧
      TwoDecimals (ratToFixed (qt / 2) 2) ∧
      StrContains doc (twoCol "TOTAL:" ("Rs " ++ ratToFixed qT 0) 40) ∧
      NoDotIn (ratToFixed qT 0) ∧
      ∀ it ∈ od.items.getD [], ∀ qp qq : ℚ, it.price = JVal.num qp →
        it.quantity = JVal.num qq →
        StrContains doc (padStart ("Rs " ++ ratToFixed (qp * qq) 2) 14 ++ "\n") ∧
        TwoDecimals (ratToFixed (qp * qq) 2) := by
  obtain ⟨itemsS, hI⟩ := renderBillItems_ok (od.items.getD [])
  have hb := buildBill_eq_ok orderId kot_code KDSInvoiceId od orderType env hs htax hT hI
  have hdocTot := billDoc_contains_totals_block orderId kot_code KDSInvoiceId od orderType
    env itemsS (ratToFixed qs 2) (ratToFixed (qt / 2) 2) (ratToFixed (qt / 2) 2)
    (ratToFixed qT 0)
  refine ⟨_, hb, ?_, twoDecimals_ratToFixed qs, ?_, ?_, twoDecimals_ratToFixed _,
    ?_, noDot_ratToFixed_zero qT, ?_⟩
  · exact strContains_trans (billTotals_contains_sub _ _ _ _) hdocTot
  · exact strContains_trans (billTotals_contains_cgst _ _ _ _) hdocTot
  · exact strContains_trans (billTotals_contains_sgst _ _ _ _) hdocTot
  · exact strContains_trans (billTotals_contains_total _ _ _ _) hdocTot
  · intro it hit qp qq hp hq
    have hrow : renderBillItem it = .ok (padEnd it.itemName 22 ++
        padEnd (jsString it.quantity) 4 ++
        (padStart ("Rs " ++ ratToFixed (qp * qq) 2) 14 ++ "\n") ++
        custLines "  + " it.selectedCustomizations) := by
      unfold renderBillItem
      rw [hp, hq]
      rfl
    have hin := renderBillItems_contains hI hit hrow
    have hcell : StrContains (padEnd it.itemName 22 ++ padEnd (jsString it.quantity) 4 ++
        (padStart ("Rs " ++ ratToFixed (qp * qq) 2) 14 ++ "\n") ++
        custLines "  + " it.selectedCustomizations)
        (padStart ("Rs " ++ ratToFixed (qp * qq) 2) 14 ++ "\n") := by
      apply strContains_of_split
        (padEnd it.itemName 22 ++ padEnd (jsString it.quantity) 4)
        (custLines "  + " it.selectedCustomizations)
      apply strEq_of_data
      simp [strData_app, List.append_assoc]
    refine ⟨?_, twoDecimals_ratToFixed _⟩
    exact strContains_trans (strContains_trans hcell hin)
      (billDoc_contains_items_str orderId kot_code KDSInvoiceId od orderType env itemsS
        (ratToFixed qs 2) (ratToFixed (qt / 2) 2) (ratToFixed (qt / 2) 2)
        (ratToFixed qT 0))

/-- C5 witness: the spec scenario with subtotal 100.00, tax 10.00 and total
110 renders `Rs 100.00`, two `+5.00` tax lines, `Rs 110`, and an item
amount cell `Rs 100.00` for a 50 x 2 item. -/
theorem c5_witness :
    ∃ doc, buildBillEscPos "ORD-1" "KOT-1" none
        ⟨none, none, JVal.num 100, JVal.num 10, JVal.num 110,
          some [⟨"Dosa", JVal.num 50, JVal.num 2, "food-cat", none⟩]⟩ none ()
        ⟨"01/01/2025", "10:00 AM"⟩ = .ok doc ∧
      StrContains doc (twoCol "Subtotal:" "Rs 100.00" 40) ∧
      StrContains doc (twoCol "CGST 2.5%:" "+5.00" 40) ∧
      StrContains doc (twoCol "SGST 2.5%:" "+5.00" 40) ∧
      StrContains doc (twoCol "TOTAL:" "Rs 110" 40) ∧
      StrContains doc (padStart "Rs 100.00" 14 ++ "\n") := by
  obtain ⟨doc, hb, h1, _, h2, h3, _, h4, _, h5⟩ := c5_bill_decimal_rendering "ORD-1"
    "KOT-1" none ⟨none, none, JVal.num 100, JVal.num 10, JVal.num 110,
      some [⟨"Dosa", JVal.num 50, JVal.num 2, "food-cat", none⟩]⟩ none
    ⟨"01/01/2025", "10:00 AM"⟩ 100 10 110 rfl rfl rfl
  obtain ⟨h6, _⟩ := h5 ⟨"Dosa", JVal.num 50, JVal.num 2, "food-cat", none⟩ (by simp)
    50 2 rfl rfl
  rw [ratToFixed_hundred] at h1
  rw [ratToFixed_ten_halved] at h2 h3
  rw [ratToFixed_one_one_zero] at h4
  rw [ratToFixed_fifty_times_two] at h6
  exact ⟨doc, hb, h1, h2, h3, h4, h6⟩

/-- C9: `androidPrintAll` dispatches the bill immediately and registers
both deferred ticket dispatches at its single scheduling point, with fixed
delays of 350 and 700 time-units measured from that point (not chained),
regardless of whether the ticket builders will return null; a null builder
result makes the fired callback log and skip the bridge call, with no
error raised, whereas a non-null result is sent over the bridge. -/
theorem c9_dispatch_schedule (orderId kot_code : String) (KDSInvoiceId : Option String)
    (od : OrderDetails) (orderType : Option String) (env envFood envCoffee : Env)
    (hs : isNumberV od.subtotal = true) (ht : isNumberV od.total = true) :
    ∃ imm t1 t2,
      androidPrintAll orderId kot_code KDSInvoiceId od orderType () env envFood
          envCoffee = .ok (imm, [⟨350, t1⟩, ⟨700, t2⟩]) ∧
      (∃ billPayload, buildBillEscPos orderId kot_code KDSInvoiceId od orderType () env =
        .ok billPayload ∧ PAction.printBill "USB" "" billPayload ∈ imm) ∧
      t1 = (androidPrintFoodKOT orderId kot_code KDSInvoiceId od envFood).1 ∧
      t2 = (androidPrintCoffeeKOT orderId kot_code KDSInvoiceId od envCoffee).1 ∧
      (buildFoodKOTEscPos orderId kot_code KDSInvoiceId od envFood = none →
        ∀ a ∈ t1, isPrintAction a = false) ∧
      (∀ d, buildFoodKOTEscPos orderId kot_code KDSInvoiceId od envFood = some d →
        PAction.printBill "USB" "" d ∈ t1) ∧
      (buildCoffeeKOTEscPos orderId kot_code KDSInvoiceId od envCoffee = none →
        ∀ a ∈ t2, isPrintAction a = false) ∧
      (∀ d, buildCoffeeKOTEscPos orderId kot_code KDSInvoiceId od envCoffee = some d →
        PAction.printBill "USB" "" d ∈ t2) := by
  obtain ⟨bd, hbd⟩ :=
    buildBill_ok_of_isNumber orderId kot_code KDSInvoiceId od orderType env hs ht
  refine ⟨PAction.consoleLog
      "[AndroidPrint] ✅ Android bridge detected — starting USB print..." ::
      [PAction.consoleLog "[AndroidPrint] 🧾 Sending Bill to printer...",
       PAction.printBill "USB" "" bd],
    (androidPrintFoodKOT orderId kot_code KDSInvoiceId od envFood).1,
    (androidPrintCoffeeKOT orderId kot_code KDSInvoiceId od envCoffee).1,
    ?_, ⟨bd, hbd, by simp⟩, rfl, rfl, ?_, ?_, ?_, ?_⟩
  · unfold androidPrintAll androidPrintBill
    rw [hbd]
  · intro hnone a ha
    simp only [androidPrintFoodKOT, hnone] at ha
    simp only [List.mem_singleton] at ha
    subst ha
    rfl
  · intro d hd
    simp [androidPrintFoodKOT, hd]
  · intro hnone a ha
    simp only [androidPrintCoffeeKOT, hnone] at ha
    simp only [List.mem_singleton] at ha
    subst ha
    rfl
  · intro d hd
    simp [androidPrintCoffeeKOT, hd]

/-- C9 witness: the schedule for a coffee-only order: the food task fires
without any bridge call, the coffee task sends its document. -/
theorem c9_witness :
    ∃ imm t1 t2,
      androidPrintAll "ORD-1" "KOT-1" none
          ⟨none, none, JVal.num 0, JVal.num 0, JVal.num 0,
            some [⟨"Espresso", JVal.num 0, JVal.num 1, "6868ca5dc29c8ed4d3c98dd8", none⟩]⟩
          none () ⟨"01/01/2025", "10:00 AM"⟩ ⟨"01/01/2025", "10:00 AM"⟩
          ⟨"01/01/2025", "10:01 AM"⟩ = .ok (imm, [⟨350, t1⟩, ⟨700, t2⟩]) ∧
      (∃ billPayload, buildBillEscPos "ORD-1" "KOT-1" none
          ⟨none, none, JVal.num 0, JVal.num 0, JVal.num 0,
            some [⟨"Espresso", JVal.num 0, JVal.num 1, "6868ca5dc29c8ed4d3c98dd8", none⟩]⟩
          none () ⟨"01/01/2025", "10:00 AM"⟩ =
        .ok billPayload ∧ PAction.printBill "USB" "" billPayload ∈ imm) ∧
      t1 = (androidPrintFoodKOT "ORD-1" "KOT-1" none
          ⟨none, none, JVal.num 0, JVal.num 0, JVal.num 0,
            some [⟨"Espresso", JVal.num 0, JVal.num 1, "6868ca5dc29c8ed4d3c98dd8", none⟩]⟩
          ⟨"01/01/2025", "10:00 AM"⟩).1 ∧
      t2 = (androidPrintCoffeeKOT "ORD-1" "KOT-1" none
          ⟨none, none, JVal.num 0, JVal.num 0, JVal.num 0,
            some [⟨"Espresso", JVal.num 0, JVal.num 1, "6868ca5dc29c8ed4d3c98dd8", none⟩]⟩
          ⟨"01/01/2025", "10:01 AM"⟩).1 ∧
      (buildFoodKOTEscPos "ORD-1" "KOT-1" none
          ⟨none, none, JVal.num 0, JVal.num 0, JVal.num 0,
            some [⟨"Espresso", JVal.num 0, JVal.num 1, "6868ca5dc29c8ed4d3c98dd8", none⟩]⟩
          ⟨"01/01/2025", "10:00 AM"⟩ = none →
        ∀ a ∈ t1, isPrintAction a = false) ∧
      (∀ d, buildFoodKOTEscPos "ORD-1" "KOT-1" none
          ⟨none, none, JVal.num 0, JVal.num 0, JVal.num 0,
            some [⟨"Espresso", JVal.num 0, JVal.num 1, "6868ca5dc29c8ed4d3c98dd8", none⟩]⟩
          ⟨"01/01/2025", "10:00 AM"⟩ = some d →
        PAction.printBill "USB" "" d ∈ t1) ∧
      (buildCoffeeKOTEscPos "ORD-1" "KOT-1" none
          ⟨none, none, JVal.num 0, JVal.num 0, JVal.num 0,
            some [⟨"Espresso", JVal.num 0, JVal.num 1, "6868ca5dc29c8ed4d3c98dd8", none⟩]⟩
          ⟨"01/01/2025", "10:01 AM"⟩ = none →
        ∀ a ∈ t2, isPrintAction a = false) ∧
      (∀ d, buildCoffeeKOTEscPos "ORD-1" "KOT-1" none
          ⟨none, none, JVal.num 0, JVal.num 0, JVal.num 0,
            some [⟨"Espresso", JVal.num 0, JVal.num 1, "6868ca5dc29c8ed4d3c98dd8", none⟩]⟩
          ⟨"01/01/2025", "10:01 AM"⟩ = some d →
        PAction.printBill "USB" "" d ∈ t2) :=
  c9_dispatch_schedule "ORD-1" "KOT-1" none
    ⟨none, none, JVal.num 0, JVal.num 0, JVal.num 0,
      some [⟨"Espresso", JVal.num 0, JVal.num 1, "6868ca5dc29c8ed4d3c98dd8", none⟩]⟩
    none ⟨"01/01/2025", "10:00 AM"⟩ ⟨"01/01/2025", "10:00 AM"⟩
    ⟨"01/01/2025", "10:01 AM"⟩ rfl rfl

end AndroidPrint
